import Mathlib

/-!
Verification of the coinalertbot monitoring core: a shallow embedding of the
change detector (`services/monitoring_service.py`), the liquidation
inferencer, the alert dispatcher (`services/alert_service.py`), the streaming
ingestor (`api/binance_websocket.py`), the symbol sanitizer
(`utils/security.py`) and the snapshot lookup (`database/database.py`),
together with theorems settling the spec's testable properties.

Modelling conventions: Python floats are embedded as exact rationals (ℚ);
Python strings that only carry labels stay Lean `String`s, while strings that
are character-processed (symbol sanitization) are embedded as lists of
Unicode code points (`List ℕ`), with the ASCII case/alphanumeric semantics
the relevant inputs exercise.
-/

namespace Coinalert

/-- One row of the `open_interest_history` table
(`database/models.py`, `OpenInterestHistory`).  The stored `timestamp` is the
Python `datetime.isoformat()` text; it is embedded as a calendar day index
`day` (the `YYYY-MM-DD` part, lexicographically equal to its numeric order)
and the whole second-of-day `sec` (the `HH:MM:SS` part). -/
structure OpenInterestHistory where
  symbol : String
  open_interest : ℚ
  day : ℕ
  sec : ℕ
  exchange : String
deriving DecidableEq, Repr

/-- Line 84 of `monitoring_service.py`:
`change_percent = ((current_oi - previous.open_interest) / previous.open_interest) * 100`. -/
def percentChange (current previous : ℚ) : ℚ :=
  (current - previous) / previous * 100

/-- An element of the `alerts` list built by
`MonitoringService.check_open_interest_changes` (lines 87–97).  The source
additionally rounds `change_percent` to two decimals for display; the
threshold decision itself uses the unrounded value, which this embedding
keeps. -/
structure OIAlert where
  symbol : String
  exchange : String
  timeframe : String
  change_percent : ℚ
  current_value : ℚ
  previous_value : ℚ
  direction : String
  threshold : ℚ
deriving DecidableEq, Repr

/-- The per-timeframe body of the loop in
`MonitoringService.check_open_interest_changes` (lines 76–98): given the
snapshot returned by `get_latest_oi` for this timeframe, emit an alert iff
the previous value is positive and the absolute percent change clears the
timeframe's threshold. -/
def checkTimeframe (sym tf : String) (threshold current_oi : ℚ)
    (previous : Option OpenInterestHistory) : Option OIAlert :=
  match previous with
  | none => none
  | some p =>
    if 0 < p.open_interest then
      if threshold ≤ |percentChange current_oi p.open_interest| then
        some { symbol := sym
               exchange := "binance"
               timeframe := tf
               change_percent := percentChange current_oi p.open_interest
               current_value := current_oi
               previous_value := p.open_interest
               direction := if 0 < percentChange current_oi p.open_interest
                            then "increase" else "decrease"
               threshold := threshold }
      else none
    else none

/-- An element of the `alerts` list built by
`MonitoringService.detect_liquidations_from_oi` (lines 150–159). -/
structure LiqAlert where
  symbol : String
  exchange : String
  side : String
  oi_change_percent : ℚ
  estimated_volume : ℚ
  confidence : String
  method : String
deriving DecidableEq, Repr

/-- The per-coin body of `MonitoringService.detect_liquidations_from_oi`
(lines 140–159): with the latest prior snapshot, fire iff
`change_percent <= -oi_drop_threshold`; confidence is `high` iff the absolute
change strictly exceeds the fixed constant 15 (line 157), independent of the
configured threshold; estimated volume is `|oi_decrease| * 50000`. -/
def detectLiquidationsFromOiStep (sym : String) (current_oi : ℚ)
    (previous : Option OpenInterestHistory) (oi_drop_threshold : ℚ) :
    Option LiqAlert :=
  match previous with
  | none => none
  | some p =>
    if 0 < p.open_interest then
      if percentChange current_oi p.open_interest ≤ -oi_drop_threshold then
        some { symbol := sym
               exchange := "binance"
               side := "long"
               oi_change_percent := percentChange current_oi p.open_interest
               estimated_volume := |p.open_interest - current_oi| * 50000
               confidence := if 15 < |percentChange current_oi p.open_interest|
                             then "high" else "medium"
               method := "oi_analysis" }
      else none
    else none

/-- C1: for an instrument whose looked-up previous snapshot exists and has
strictly positive open interest, `check_open_interest_changes` computes
`percent_change = (current - previous)/previous * 100` and emits a change
alert for the timeframe if and only if `|percent_change|` reaches the
timeframe's threshold, with direction `increase` exactly when the change is
positive and `decrease` otherwise. -/
theorem check_open_interest_changes_emits_iff
    (sym tf : String) (threshold current_oi : ℚ) (p : OpenInterestHistory)
    (hp : 0 < p.open_interest) :
    checkTimeframe sym tf threshold current_oi (some p) =
      if threshold ≤ |percentChange current_oi p.open_interest| then
        some { symbol := sym
               exchange := "binance"
               timeframe := tf
               change_percent := percentChange current_oi p.open_interest
               current_value := current_oi
               previous_value := p.open_interest
               direction := if 0 < percentChange current_oi p.open_interest
                            then "increase" else "decrease"
               threshold := threshold }
      else none := by
  simp only [checkTimeframe, if_pos hp]

/-- Witness for C1 on the spec's end-to-end scenario: previous OI 95000,
current OI 100000, threshold 5 % → percent change 100/19 ≈ 5.26 %, one
`increase` alert. -/
theorem check_open_interest_changes_emits_iff_witness :
    (0 : ℚ) < 95000 ∧
    checkTimeframe "BTC" "15min" 5 100000
        (some { symbol := "BTCUSDT", open_interest := 95000, day := 0,
                sec := 0, exchange := "binance" }) =
      some { symbol := "BTC"
             exchange := "binance"
             timeframe := "15min"
             change_percent := 100 / 19
             current_value := 100000
             previous_value := 95000
             direction := "increase"
             threshold := 5 } := by
  refine ⟨by norm_num, ?_⟩
  rw [check_open_interest_changes_emits_iff "BTC" "15min" 5 100000 _ (by norm_num)]
  have h1 : percentChange 100000 95000 = 100 / 19 := by norm_num [percentChange]
  rw [h1, abs_of_pos (by norm_num : (0 : ℚ) < 100 / 19),
    if_pos (by norm_num : (5 : ℚ) ≤ 100 / 19),
    if_pos (by norm_num : (0 : ℚ) < 100 / 19)]

/-- Unfolding lemma: the firing case of `detect_liquidations_from_oi`
(positive previous value, drop at or beyond the threshold). -/
theorem detectLiquidationsFromOiStep_eq_some
    (sym : String) (current_oi oi_drop_threshold : ℚ)
    (p : OpenInterestHistory)
    (h1 : 0 < p.open_interest)
    (h2 : percentChange current_oi p.open_interest ≤ -oi_drop_threshold) :
    detectLiquidationsFromOiStep sym current_oi (some p) oi_drop_threshold =
      some { symbol := sym
             exchange := "binance"
             side := "long"
             oi_change_percent := percentChange current_oi p.open_interest
             estimated_volume := |p.open_interest - current_oi| * 50000
             confidence := if 15 < |percentChange current_oi p.open_interest|
                           then "high" else "medium"
             method := "oi_analysis" } := by
  simp only [detectLiquidationsFromOiStep, if_pos h1, if_pos h2]

/-- C2 counterexample: with a configured `liquidation_drop_threshold_percent`
of 4 and a drop from 100 to 93 (percent change −7, so
`|percent_change| = 7 ≥ 1.5 * 4 = 6`), the emitted event's confidence is
`medium`, not `high`: the source compares against the fixed constant 15
(line 157), not against `1.5 *` the configured threshold. -/
theorem detect_liquidations_confidence_counterexample :
    (detectLiquidationsFromOiStep "ABC" 93
        (some { symbol := "ABCUSDT", open_interest := 100, day := 0, sec := 0,
                exchange := "binance" }) 4).map LiqAlert.confidence =
      some "medium" ∧
    (3 / 2 : ℚ) * 4 ≤ |percentChange 93 100| := by
  have h : percentChange 93 100 = -7 := by norm_num [percentChange]
  have habs : |(-7 : ℚ)| = 7 := by
    rw [abs_of_neg (by norm_num : (-7 : ℚ) < 0)]
    norm_num
  constructor
  · rw [detectLiquidationsFromOiStep_eq_some "ABC" 93 4
        { symbol := "ABCUSDT", open_interest := 100, day := 0, sec := 0,
          exchange := "binance" }
        (by norm_num)
        (by
          show percentChange 93 100 ≤ -4
          rw [h]
          norm_num)]
    simp only [Option.map_some]
    show some (if 15 < |percentChange 93 100| then "high" else "medium") =
      some "medium"
    rw [h, habs, if_neg (by norm_num : ¬ (15 : ℚ) < 7)]
  · rw [h, habs]
    norm_num

/-- C2 amended: the confidence of every event emitted by
`detect_liquidations_from_oi` is `high` exactly when `|percent_change|`
strictly exceeds the fixed constant 15, independent of the configured
`liquidation_drop_threshold_percent`. -/
theorem detect_liquidations_confidence_fixed_constant
    (sym : String) (current_oi oi_drop_threshold : ℚ)
    (p : OpenInterestHistory) (a : LiqAlert)
    (ha : detectLiquidationsFromOiStep sym current_oi (some p)
            oi_drop_threshold = some a) :
    a.confidence =
      if 15 < |percentChange current_oi p.open_interest| then "high"
      else "medium" := by
  simp only [detectLiquidationsFromOiStep] at ha
  by_cases h1 : 0 < p.open_interest
  · rw [if_pos h1] at ha
    by_cases h2 : percentChange current_oi p.open_interest ≤ -oi_drop_threshold
    · rw [if_pos h2] at ha
      injection ha with ha
      rw [← ha]
    · rw [if_neg h2] at ha
      exact absurd ha (by simp)
  · rw [if_neg h1] at ha
    exact absurd ha (by simp)

/-- Witness for the amended C2: a drop from 100 to 80 with threshold 10
fires with percent change −20, and `20 > 15` gives confidence `high`. -/
theorem detect_liquidations_confidence_fixed_constant_witness :
    detectLiquidationsFromOiStep "BTC" 80
        (some { symbol := "BTCUSDT", open_interest := 100, day := 0, sec := 0,
                exchange := "binance" }) 10 =
      some { symbol := "BTC", exchange := "binance", side := "long",
             oi_change_percent := -20, estimated_volume := 20 * 50000,
             confidence := "high", method := "oi_analysis" } ∧
    ({ symbol := "BTC", exchange := "binance", side := "long",
       oi_change_percent := -20, estimated_volume := 20 * 50000,
       confidence := "high", method := "oi_analysis" } : LiqAlert).confidence =
      if 15 < |percentChange 80 100| then "high" else "medium" := by
  have h : percentChange 80 100 = -20 := by norm_num [percentChange]
  have habs : |(-20 : ℚ)| = 20 := by
    rw [abs_of_neg (by norm_num : (-20 : ℚ) < 0)]
    norm_num
  have ha : detectLiquidationsFromOiStep "BTC" 80
      (some { symbol := "BTCUSDT", open_interest := 100, day := 0, sec := 0,
              exchange := "binance" }) 10 =
      some { symbol := "BTC", exchange := "binance", side := "long",
             oi_change_percent := -20, estimated_volume := 20 * 50000,
             confidence := "high", method := "oi_analysis" } := by
    rw [detectLiquidationsFromOiStep_eq_some "BTC" 80 10
        { symbol := "BTCUSDT", open_interest := 100, day := 0, sec := 0,
          exchange := "binance" }
        (by norm_num)
        (by
          show percentChange 80 100 ≤ -10
          rw [h]
          norm_num)]
    simp only [h, habs]
    norm_num
  refine ⟨ha, ?_⟩
  have := detect_liquidations_confidence_fixed_constant "BTC" 80 10
    { symbol := "BTCUSDT", open_interest := 100, day := 0, sec := 0,
      exchange := "binance" }
    { symbol := "BTC", exchange := "binance", side := "long",
      oi_change_percent := -20, estimated_volume := 20 * 50000,
      confidence := "high", method := "oi_analysis" } ha
  exact this

/-- C7: with a positive configured drop threshold, every event emitted by
`detect_liquidations_from_oi` has a strictly negative percent change whose
magnitude reaches the threshold, and its side is always `long`. -/
theorem detect_liquidations_fires_only_on_large_drops
    (sym : String) (current_oi oi_drop_threshold : ℚ)
    (p : OpenInterestHistory) (a : LiqAlert)
    (hthr : 0 < oi_drop_threshold)
    (ha : detectLiquidationsFromOiStep sym current_oi (some p)
            oi_drop_threshold = some a) :
    percentChange current_oi p.open_interest < 0 ∧
    oi_drop_threshold ≤ |percentChange current_oi p.open_interest| ∧
    a.side = "long" := by
  simp only [detectLiquidationsFromOiStep] at ha
  by_cases h1 : 0 < p.open_interest
  · rw [if_pos h1] at ha
    by_cases h2 : percentChange current_oi p.open_interest ≤ -oi_drop_threshold
    · rw [if_pos h2] at ha
      have hneg : percentChange current_oi p.open_interest < 0 := by linarith
      refine ⟨hneg, ?_, ?_⟩
      · rw [abs_of_neg hneg]
        linarith
      · injection ha with ha
        rw [← ha]
    · rw [if_neg h2] at ha
      exact absurd ha (by simp)
  · rw [if_neg h1] at ha
    exact absurd ha (by simp)

/-- Witness for C7 on the spec's end-to-end scenario: previous OI 107000,
current OI 100000, threshold 5 → percent change −700/107 ≈ −6.54 %, one
long-side event of medium confidence. -/
theorem detect_liquidations_fires_only_on_large_drops_witness :
    (0 : ℚ) < 5 ∧
    (percentChange 100000 107000 < 0 ∧
     (5 : ℚ) ≤ |percentChange 100000 107000| ∧
     ({ symbol := "BTC", exchange := "binance", side := "long",
        oi_change_percent := -700 / 107, estimated_volume := 7000 * 50000,
        confidence := "medium", method := "oi_analysis" } : LiqAlert).side =
       "long") := by
  have h : percentChange 100000 107000 = -700 / 107 := by
    norm_num [percentChange]
  have habs : |(-700 / 107 : ℚ)| = 700 / 107 := by
    rw [abs_of_neg (by norm_num : (-700 / 107 : ℚ) < 0)]
    norm_num
  have ha : detectLiquidationsFromOiStep "BTC" 100000
      (some { symbol := "BTCUSDT", open_interest := 107000, day := 0,
              sec := 0, exchange := "binance" }) 5 =
      some { symbol := "BTC", exchange := "binance", side := "long",
             oi_change_percent := -700 / 107,
             estimated_volume := 7000 * 50000,
             confidence := "medium", method := "oi_analysis" } := by
    rw [detectLiquidationsFromOiStep_eq_some "BTC" 100000 5
        { symbol := "BTCUSDT", open_interest := 107000, day := 0, sec := 0,
          exchange := "binance" }
        (by norm_num)
        (by
          show percentChange 100000 107000 ≤ -5
          rw [h]
          norm_num)]
    simp only [h, habs]
    norm_num
  exact ⟨by norm_num,
    detect_liquidations_fires_only_on_large_drops "BTC" 100000 5
      { symbol := "BTCUSDT", open_interest := 107000, day := 0, sec := 0,
        exchange := "binance" }
      { symbol := "BTC", exchange := "binance", side := "long",
        oi_change_percent := -700 / 107, estimated_volume := 7000 * 50000,
        confidence := "medium", method := "oi_analysis" }
      (by norm_num) ha⟩

/-- Python `str.isalnum` restricted to the ASCII code points the symbol
strings exercise: digits `0-9`, letters `A-Z` and `a-z`.  Characters are
embedded as natural-number code points. -/
def pyIsAlnum (c : ℕ) : Bool :=
  (48 ≤ c && c ≤ 57) || (65 ≤ c && c ≤ 90) || (97 ≤ c && c ≤ 122)

/-- Python `str.upper` on an ASCII code point. -/
def pyToUpper (c : ℕ) : ℕ :=
  if 97 ≤ c ∧ c ≤ 122 then c - 32 else c

/-- Python `str.lower` on an ASCII code point. -/
def pyToLower (c : ℕ) : ℕ :=
  if 65 ≤ c ∧ c ≤ 90 then c + 32 else c

theorem pyToUpper_idem (c : ℕ) : pyToUpper (pyToUpper c) = pyToUpper c := by
  by_cases h : 97 ≤ c ∧ c ≤ 122
  · have h2 : ¬(97 ≤ c - 32 ∧ c - 32 ≤ 122) := by omega
    simp only [pyToUpper, if_pos h, if_neg h2]
  · simp only [pyToUpper, if_neg h]

/-- `InputValidator.sanitize_symbol` (`utils/security.py`, lines 78–99):
uppercase the input, keep only alphanumeric characters, and reject when the
result is empty or longer than `max_length`. -/
def sanitize_symbol (symbol : List ℕ) (max_length : ℕ := 20) :
    Option (List ℕ) :=
  let sanitized := (symbol.map pyToUpper).filter pyIsAlnum
  if sanitized = [] ∨ max_length < sanitized.length then none else some sanitized

/-- C8: symbol sanitization is idempotent (re-sanitizing any successful
result returns it unchanged), every successful result consists only of
alphanumeric characters, and sanitization returns nothing exactly when the
uppercased-and-stripped input is empty or longer than the maximum length. -/
theorem sanitize_symbol_spec (x : List ℕ) :
    (sanitize_symbol x 20).bind (fun y => sanitize_symbol y 20) =
      sanitize_symbol x 20 ∧
    ((sanitize_symbol x 20).getD []).all pyIsAlnum = true ∧
    (sanitize_symbol x 20 = none ↔
      (x.map pyToUpper).filter pyIsAlnum = [] ∨
        20 < ((x.map pyToUpper).filter pyIsAlnum).length) := by
  have hall : ∀ d ∈ (x.map pyToUpper).filter pyIsAlnum, pyIsAlnum d = true :=
    fun d hd => (List.mem_filter.mp hd).2
  have hfix : ∀ d ∈ (x.map pyToUpper).filter pyIsAlnum,
      pyToUpper d = d := by
    intro d hd
    obtain ⟨c, _, rfl⟩ := List.mem_map.mp (List.mem_filter.mp hd).1
    exact pyToUpper_idem c
  have hyy : (((x.map pyToUpper).filter pyIsAlnum).map pyToUpper).filter
      pyIsAlnum = (x.map pyToUpper).filter pyIsAlnum := by
    rw [List.map_congr_left hfix, List.map_id', List.filter_eq_self.mpr hall]
  refine ⟨?_, ?_, ?_⟩
  · by_cases h : (x.map pyToUpper).filter pyIsAlnum = [] ∨
        20 < ((x.map pyToUpper).filter pyIsAlnum).length
    · simp only [sanitize_symbol, if_pos h, Option.none_bind]
    · simp only [sanitize_symbol, if_neg h, Option.some_bind, hyy]
  · by_cases h : (x.map pyToUpper).filter pyIsAlnum = [] ∨
        20 < ((x.map pyToUpper).filter pyIsAlnum).length
    · simp only [sanitize_symbol, if_pos h, Option.getD_none, List.all_nil]
    · simp only [sanitize_symbol, if_neg h, Option.getD_some]
      exact List.all_eq_true.mpr hall
  · by_cases h : (x.map pyToUpper).filter pyIsAlnum = [] ∨
        20 < ((x.map pyToUpper).filter pyIsAlnum).length
    · simp only [sanitize_symbol, if_pos h]
      exact iff_of_true (by trivial) h
    · simp only [sanitize_symbol, if_neg h]
      exact ⟨fun heq => absurd heq (by simp), fun hc => absurd hc h⟩

/-- `self.reconnect_delay = 5` in `BinanceWebSocket.__init__` (line 26). -/
def base_reconnect_delay : ℕ := 5

/-- `self.max_reconnect_delay = 60` (line 27). -/
def max_reconnect_delay : ℕ := 60

/-- Line 79 of `binance_websocket.py`:
`self.reconnect_delay = min(self.reconnect_delay * 2, self.max_reconnect_delay)`,
executed after each failed connection attempt. -/
def nextReconnectDelay (d : ℕ) : ℕ :=
  min (d * 2) max_reconnect_delay

/-- The wait `_maintain_connection` sleeps after the (k+1)-th consecutive
connection failure (the wait before the (k+1)-th retry): the delay starts at
the base and is doubled-and-capped after each failure (lines 68–79). -/
def reconnectWait : ℕ → ℕ
  | 0 => base_reconnect_delay
  | k + 1 => nextReconnectDelay (reconnectWait k)

/-- `self.reconnect_delay = 5` on successful connection
(`_connect_and_listen`, line 103). -/
def resetReconnectDelayOnConnect : ℕ := 5

/-- C5: after k consecutive connection failures from the 5-second base, the
wait before the next retry is `min(5 * 2^k, 60)` seconds — in particular the
first three waits are 5 s, 10 s and 20 s — and a successful connect resets
the delay to the base. -/
theorem reconnect_backoff_closed_form (k : ℕ) :
    reconnectWait k = min (5 * 2 ^ k) 60 ∧
    [reconnectWait 0, reconnectWait 1, reconnectWait 2] = [5, 10, 20] ∧
    resetReconnectDelayOnConnect = base_reconnect_delay := by
  have hclosed : ∀ n, reconnectWait n = min (5 * 2 ^ n) 60 := by
    intro n
    induction n with
    | zero => rfl
    | succ m ih =>
      simp only [reconnectWait, nextReconnectDelay, ih, max_reconnect_delay,
        pow_succ, ← mul_assoc]
      omega
  exact ⟨hclosed k, by decide, rfl⟩

/-- A grouped outbound message of `AlertService.send_alerts_batch`: the
events shown as individual lines, and the optional "... и еще K" suffix
count. -/
structure GroupMessage (α : Type) where
  shown : List α
  more : Option ℕ
deriving Repr

/-- The per-timeframe open-interest message of `send_alerts_batch`
(`alert_service.py`, lines 62–73): one line per alert in `tf_alerts[:10]`,
plus `... и еще {len(tf_alerts) - 10}` when more than 10 alerts. -/
def oiTimeframeMessage (tf_alerts : List OIAlert) : GroupMessage OIAlert :=
  { shown := tf_alerts.take 10
    more := if 10 < tf_alerts.length then some (tf_alerts.length - 10)
            else none }

/-- The liquidation message of `send_alerts_batch` (lines 77–93): one line
per alert in `liq_alerts[:10]`, plus `... и еще {len(liq_alerts) - 10}` when
more than 10 alerts. -/
def liquidationMessage (liq_alerts : List LiqAlert) : GroupMessage LiqAlert :=
  { shown := liq_alerts.take 10
    more := if 10 < liq_alerts.length then some (liq_alerts.length - 10)
            else none }

/-- C6: each grouped message of the dispatcher shows at most 10 individual
event lines; when a "+K more" count is reported, `shown + K` equals the
total number of events in the group, and when none is reported the whole
group is shown. -/
theorem send_alerts_batch_caps_groups (tf_alerts : List OIAlert)
    (liq_alerts : List LiqAlert) :
    (oiTimeframeMessage tf_alerts).shown.length ≤ 10 ∧
    ((oiTimeframeMessage tf_alerts).more.elim
      ((oiTimeframeMessage tf_alerts).shown.length = tf_alerts.length)
      (fun K => (oiTimeframeMessage tf_alerts).shown.length + K =
        tf_alerts.length)) ∧
    (liquidationMessage liq_alerts).shown.length ≤ 10 ∧
    ((liquidationMessage liq_alerts).more.elim
      ((liquidationMessage liq_alerts).shown.length = liq_alerts.length)
      (fun K => (liquidationMessage liq_alerts).shown.length + K =
        liq_alerts.length)) := by
  refine ⟨?_, ?_, ?_, ?_⟩
  · simp only [oiTimeframeMessage, List.length_take]
    omega
  · by_cases h : 10 < tf_alerts.length
    · simp only [oiTimeframeMessage, if_pos h, Option.elim_some,
        List.length_take]
      omega
    · simp only [oiTimeframeMessage, if_neg h, Option.elim_none,
        List.length_take]
      omega
  · simp only [liquidationMessage, List.length_take]
    omega
  · by_cases h : 10 < liq_alerts.length
    · simp only [liquidationMessage, if_pos h, Option.elim_some,
        List.length_take]
      omega
    · simp only [liquidationMessage, if_neg h, Option.elim_none,
        List.length_take]
      omega

/-- `self.max_symbols = 200` in `BinanceWebSocket.__init__` (line 28). -/
def max_symbols : ℕ := 200

/-- The per-symbol sanitization of `BinanceWebSocket.start` (lines 48–55):
uppercase, keep only alphanumerics, accept when nonempty and at most 20
characters, and subscribe with the lowercased result. -/
def validateStartSymbol (symbol : List ℕ) : Option (List ℕ) :=
  let sanitized := (symbol.map pyToUpper).filter pyIsAlnum
  if sanitized ≠ [] ∧ sanitized.length ≤ 20 then some (sanitized.map pyToLower)
  else none

/-- The validation phase of `BinanceWebSocket.start` (lines 31–63): an empty
input list raises `ValueError` (modelled as `Except.error`); a list longer
than `max_symbols` is truncated to its first 200 entries with only a warning
logged; each surviving symbol is sanitized; if no symbol survives, a
`ValueError` is raised; otherwise the connection proceeds with the validated
list. -/
def start (symbols : List (List ℕ)) : Except String (List (List ℕ)) :=
  if symbols = [] then .error "empty symbol list"
  else
    let truncated := if max_symbols < symbols.length then
      symbols.take max_symbols else symbols
    let validated := truncated.filterMap validateStartSymbol
    if validated = [] then .error "no valid symbols" else .ok validated

set_option maxRecDepth 10000 in
/-- C4 counterexample: a set of 201 valid symbols does not make `start`
fail — it is silently truncated to the first 200 symbols and `start`
proceeds with the modified set (code point 98 is the letter `b`). -/
theorem start_oversized_counterexample :
    start (List.replicate 201 [98]) = .ok (List.replicate 200 [98]) := by
  rfl

/-- C4 amended: `start` raises an error on an empty symbol list and on a
list whose symbols are all unsanitizable; a list longer than 200 symbols
does not fail but is truncated to its first 200 entries, and `start`
proceeds with the sanitized truncation (hence with at most 200 symbols). -/
theorem start_validation (symbols : List (List ℕ)) :
    (symbols = [] → start symbols = .error "empty symbol list") ∧
    (symbols ≠ [] →
      (if max_symbols < symbols.length then symbols.take max_symbols
       else symbols).filterMap validateStartSymbol = [] →
      start symbols = .error "no valid symbols") ∧
    (200 < symbols.length →
      (symbols.take 200).filterMap validateStartSymbol ≠ [] →
      start symbols = .ok ((symbols.take 200).filterMap validateStartSymbol) ∧
      ((symbols.take 200).filterMap validateStartSymbol).length ≤ 200) := by
  refine ⟨?_, ?_, ?_⟩
  · intro h
    rw [start, if_pos h]
  · intro hne hv
    simp only [start, if_neg hne]
    rw [if_pos hv]
  · intro hlen hval
    have hne : symbols ≠ [] := by
      intro h
      rw [h] at hlen
      simp at hlen
    have htr : (if max_symbols < symbols.length then symbols.take max_symbols
        else symbols) = symbols.take 200 := by
      simp only [max_symbols]
      rw [if_pos hlen]
    constructor
    · rw [start, if_neg hne]
      simp only [htr, if_neg hval]
    · calc ((symbols.take 200).filterMap validateStartSymbol).length
          ≤ (symbols.take 200).length := List.length_filterMap_le _ _
        _ ≤ 200 := by
            simp only [List.length_take]
            omega

set_option maxRecDepth 10000 in
/-- Witness for the amended C4: 250 copies of the symbol `c` (code point 99)
are truncated to 200 and subscribed. -/
theorem start_validation_witness :
    start (List.replicate 250 [99]) = .ok (List.replicate 200 [99]) ∧
    (List.replicate 200 ([99] : List ℕ)).length ≤ 200 := by
  have h := (start_validation (List.replicate 250 [99])).2.2
    (by simp) (by decide)
  exact h

/-- An inbound Binance stream message as `_process_message` receives it
(`binance_websocket.py`, lines 125–136): event tag `e`, epoch-millisecond
timestamp `E`, raw symbol `s`, and the open-interest field `o` after
`float(...)` parsing — `none` models a value whose parse raises (the source
catches the exception and drops the message).  Messages whose fields have an
unexpected runtime type are likewise dropped before this point. -/
structure WSMessage where
  e : String
  E : ℤ
  s : List ℕ
  o : Option ℚ
deriving DecidableEq, Repr

/-- The `update_data` dict passed to the `on_oi_update` callback
(lines 191–198). -/
structure OIUpdate where
  symbol : List ℕ
  current_oi : ℚ
  previous_oi : ℚ
  change_percent : ℚ
  timestamp_ms : ℤ
deriving DecidableEq, Repr

/-- The `self.oi_cache` dict (`{symbol: {'oi': value, ...}}`), embedded as an
association list where an assignment prepends and lookup takes the first
match. -/
def OICache : Type := List (List ℕ × ℚ)

def cacheLookup : OICache → List ℕ → Option ℚ
  | ([] : List (List ℕ × ℚ)), _ => none
  | (k, v) :: rest, sym => if k = sym then some v else cacheLookup rest sym

/-- `BinanceWebSocket._process_message` (lines 125–207): validate the event
tag, sanitize the symbol, range-check the OI value and the timestamp, drop
non-positive OI values, surface a live update only when the change against
the cached previous value clears the 0.1 % floor, and finally write the new
value to the per-symbol cache.  (`datetime.fromtimestamp` overflow on an
absurdly large timestamp, also dropped by the source, is outside the range
this embedding exercises.) -/
def processMessage (cache : OICache) (data : WSMessage) :
    OICache × Option OIUpdate :=
  if data.e ≠ "openInterest" then (cache, none)
  else
    let symbol := (data.s.map pyToUpper).filter pyIsAlnum
    if symbol = [] ∨ 20 < symbol.length then (cache, none)
    else
      match data.o with
      | none => (cache, none)
      | some current_oi =>
        if current_oi < 0 ∨ (10 ^ 15 : ℚ) < current_oi then (cache, none)
        else if data.E < 0 then (cache, none)
        else if current_oi ≤ 0 then (cache, none)
        else
          let event :=
            match cacheLookup cache symbol with
            | none => none
            | some previous_oi =>
              if 0 < previous_oi then
                if (1 / 10 : ℚ) ≤ |percentChange current_oi previous_oi| then
                  some { symbol := symbol, current_oi := current_oi,
                         previous_oi := previous_oi,
                         change_percent := percentChange current_oi previous_oi,
                         timestamp_ms := data.E }
                else none
              else none
          ((symbol, current_oi) :: cache, event)

/-- Characterization of the messages `_process_message` accepts: the
sanitized symbol and parsed value of a message that passes every validation
with a strictly positive OI, `none` for a message that is dropped. -/
def messageValidOi (data : WSMessage) : Option (List ℕ × ℚ) :=
  if data.e ≠ "openInterest" then none
  else
    let symbol := (data.s.map pyToUpper).filter pyIsAlnum
    if symbol = [] ∨ 20 < symbol.length then none
    else
      match data.o with
      | none => none
      | some current_oi =>
        if current_oi < 0 ∨ (10 ^ 15 : ℚ) < current_oi then none
        else if data.E < 0 then none
        else if current_oi ≤ 0 then none
        else some (symbol, current_oi)

theorem processMessage_fst (cache : OICache) (data : WSMessage) :
    (processMessage cache data).1 =
      match messageValidOi data with
      | none => cache
      | some (s, v) => (s, v) :: cache := by
  unfold processMessage messageValidOi
  by_cases h1 : data.e ≠ "openInterest"
  · simp only [if_pos h1]
  · simp only [if_neg h1]
    by_cases h2 : (data.s.map pyToUpper).filter pyIsAlnum = [] ∨
        20 < ((data.s.map pyToUpper).filter pyIsAlnum).length
    · simp only [if_pos h2]
    · simp only [if_neg h2]
      cases hdo : data.o with
      | none => simp only [hdo]
      | some v =>
        simp only [hdo]
        by_cases h3 : v < 0 ∨ (10 ^ 15 : ℚ) < v
        · simp only [if_pos h3]
        · simp only [if_neg h3]
          by_cases h4 : data.E < 0
          · simp only [if_pos h4]
          · simp only [if_neg h4]
            by_cases h5 : v ≤ 0
            · simp only [if_pos h5]
            · simp only [if_neg h5]

theorem processMessage_snd_of_valid (cache : OICache) (data : WSMessage)
    (sym : List ℕ) (v : ℚ)
    (h : messageValidOi data = some (sym, v)) :
    (processMessage cache data).2 =
      match cacheLookup cache sym with
      | none => none
      | some previous_oi =>
        if 0 < previous_oi then
          if (1 / 10 : ℚ) ≤ |percentChange v previous_oi| then
            some { symbol := sym, current_oi := v, previous_oi := previous_oi,
                   change_percent := percentChange v previous_oi,
                   timestamp_ms := data.E }
          else none
        else none := by
  unfold messageValidOi at h
  unfold processMessage
  by_cases h1 : data.e ≠ "openInterest"
  · rw [if_pos h1] at h
    exact absurd h (by simp)
  · simp only [if_neg h1] at h ⊢
    by_cases h2 : (data.s.map pyToUpper).filter pyIsAlnum = [] ∨
        20 < ((data.s.map pyToUpper).filter pyIsAlnum).length
    · rw [if_pos h2] at h
      exact absurd h (by simp)
    · simp only [if_neg h2] at h ⊢
      cases hdo : data.o with
      | none =>
        rw [hdo] at h
        exact absurd h (by simp)
      | some v0 =>
        simp only [hdo] at h ⊢
        by_cases h3 : v0 < 0 ∨ (10 ^ 15 : ℚ) < v0
        · rw [if_pos h3] at h
          exact absurd h (by simp)
        · simp only [if_neg h3] at h ⊢
          by_cases h4 : data.E < 0
          · rw [if_pos h4] at h
            exact absurd h (by simp)
          · simp only [if_neg h4] at h ⊢
            by_cases h5 : v0 ≤ 0
            · rw [if_pos h5] at h
              exact absurd h (by simp)
            · simp only [if_neg h5] at h ⊢
              obtain ⟨hs, hv⟩ := Prod.mk.injEq .. ▸ Option.some.inj h
              subst hs
              subst hv
              rfl

/-- The cache after the listening loop has fed a message list through
`_process_message` from an empty cache. -/
def runCache (msgs : List WSMessage) : OICache :=
  msgs.foldl (fun c m => (processMessage c m).1) ([] : List (List ℕ × ℚ))

/-- The value carried by the last message of `msgs` that passes validation
with symbol `sym` (none if there is no such message). -/
def lastValidOi (msgs : List WSMessage) (sym : List ℕ) : Option ℚ :=
  msgs.foldl (fun acc m =>
    match messageValidOi m with
    | some (s, v) => if s = sym then some v else acc
    | none => acc) none

theorem cacheLookup_foldl (msgs : List WSMessage) (c : OICache)
    (sym : List ℕ) :
    cacheLookup (msgs.foldl (fun cc m => (processMessage cc m).1) c) sym =
      msgs.foldl (fun acc m =>
        match messageValidOi m with
        | some (s, v) => if s = sym then some v else acc
        | none => acc) (cacheLookup c sym) := by
  induction msgs generalizing c with
  | nil => rfl
  | cons m rest ih =>
    simp only [List.foldl_cons]
    rw [ih]
    congr 1
    rw [processMessage_fst]
    cases h : messageValidOi m with
    | none => rfl
    | some p =>
      obtain ⟨s, v⟩ := p
      simp only [cacheLookup]

theorem cacheLookup_runCache (msgs : List WSMessage) (sym : List ℕ) :
    cacheLookup (runCache msgs) sym = lastValidOi msgs sym :=
  cacheLookup_foldl msgs ([] : List (List ℕ × ℚ)) sym

/-- C9: after any trace of inbound messages, processing a further message
that passes validation with a strictly positive OI always writes that value
to the per-symbol cache (whether or not an update is surfaced); any surfaced
update carries as previous value exactly the value of the last previously
accepted message for that symbol, and carries the new value as current; and
if no prior message for the symbol was accepted, no update is surfaced. -/
theorem websocket_cache_tracks_last_valid_update
    (msgs : List WSMessage) (data : WSMessage) (sym : List ℕ) (v : ℚ)
    (h : messageValidOi data = some (sym, v)) :
    cacheLookup (processMessage (runCache msgs) data).1 sym = some v ∧
    ((processMessage (runCache msgs) data).2 = none ∨
      ((processMessage (runCache msgs) data).2.map OIUpdate.previous_oi =
         lastValidOi msgs sym ∧
       (processMessage (runCache msgs) data).2.map OIUpdate.current_oi =
         some v)) ∧
    (lastValidOi msgs sym = none →
      (processMessage (runCache msgs) data).2 = none) := by
  have hfst : cacheLookup (processMessage (runCache msgs) data).1 sym =
      some v := by
    rw [processMessage_fst, h]
    simp [cacheLookup]
  have hsnd := processMessage_snd_of_valid (runCache msgs) data sym v h
  have hlook := cacheLookup_runCache msgs sym
  refine ⟨hfst, ?_, ?_⟩
  · rw [hsnd, hlook]
    cases hl : lastValidOi msgs sym with
    | none => exact Or.inl rfl
    | some prev =>
      by_cases hp : 0 < prev
      · by_cases hf : (1 / 10 : ℚ) ≤ |percentChange v prev|
        · simp only [if_pos hp, if_pos hf]
          exact Or.inr ⟨rfl, rfl⟩
        · simp only [if_pos hp, if_neg hf]
          exact Or.inl trivial
      · simp only [if_neg hp]
        exact Or.inl trivial
  · intro hl
    rw [hsnd, hlook, hl]

/-- Witness for C9: three valid BTCUSDT messages (code points 66 84 67 =
`BTC`, 85 83 68 84 = `USDT`) with values 100, 103, 110. -/
theorem websocket_cache_tracks_last_valid_update_witness :
    cacheLookup (processMessage
        (runCache
          [{ e := "openInterest", E := 1700000000000,
             s := [66, 84, 67, 85, 83, 68, 84], o := some 100 },
           { e := "openInterest", E := 1700000001000,
             s := [66, 84, 67, 85, 83, 68, 84], o := some 103 }])
        { e := "openInterest", E := 1700000002000,
          s := [66, 84, 67, 85, 83, 68, 84], o := some 110 }).1
      [66, 84, 67, 85, 83, 68, 84] = some 110 ∧
    ((processMessage
        (runCache
          [{ e := "openInterest", E := 1700000000000,
             s := [66, 84, 67, 85, 83, 68, 84], o := some 100 },
           { e := "openInterest", E := 1700000001000,
             s := [66, 84, 67, 85, 83, 68, 84], o := some 103 }])
        { e := "openInterest", E := 1700000002000,
          s := [66, 84, 67, 85, 83, 68, 84], o := some 110 }).2 = none ∨
      (((processMessage
        (runCache
          [{ e := "openInterest", E := 1700000000000,
             s := [66, 84, 67, 85, 83, 68, 84], o := some 100 },
           { e := "openInterest", E := 1700000001000,
             s := [66, 84, 67, 85, 83, 68, 84], o := some 103 }])
        { e := "openInterest", E := 1700000002000,
          s := [66, 84, 67, 85, 83, 68, 84], o := some 110 }).2.map
            OIUpdate.previous_oi =
        lastValidOi
          [{ e := "openInterest", E := 1700000000000,
             s := [66, 84, 67, 85, 83, 68, 84], o := some 100 },
           { e := "openInterest", E := 1700000001000,
             s := [66, 84, 67, 85, 83, 68, 84], o := some 103 }]
          [66, 84, 67, 85, 83, 68, 84] ∧
       (processMessage
        (runCache
          [{ e := "openInterest", E := 1700000000000,
             s := [66, 84, 67, 85, 83, 68, 84], o := some 100 },
           { e := "openInterest", E := 1700000001000,
             s := [66, 84, 67, 85, 83, 68, 84], o := some 103 }])
        { e := "openInterest", E := 1700000002000,
          s := [66, 84, 67, 85, 83, 68, 84], o := some 110 }).2.map
            OIUpdate.current_oi = some 110))) ∧
    (lastValidOi
        [{ e := "openInterest", E := 1700000000000,
           s := [66, 84, 67, 85, 83, 68, 84], o := some 100 },
         { e := "openInterest", E := 1700000001000,
           s := [66, 84, 67, 85, 83, 68, 84], o := some 103 }]
        [66, 84, 67, 85, 83, 68, 84] = none →
      (processMessage
        (runCache
          [{ e := "openInterest", E := 1700000000000,
             s := [66, 84, 67, 85, 83, 68, 84], o := some 100 },
           { e := "openInterest", E := 1700000001000,
             s := [66, 84, 67, 85, 83, 68, 84], o := some 103 }])
        { e := "openInterest", E := 1700000002000,
          s := [66, 84, 67, 85, 83, 68, 84], o := some 110 }).2 = none) :=
  websocket_cache_tracks_last_valid_update _ _
    [66, 84, 67, 85, 83, 68, 84] 110 (by rfl)

/-- The range validation of `_process_message` (line 162):
`current_oi < 0 or current_oi > 1e15` rejects the value. -/
def oiRangeCheckPasses (v : ℚ) : Prop :=
  ¬(v < 0 ∨ (10 ^ 15 : ℚ) < v)

/-- C10: a message whose OI field parses to exactly zero passes the range
validation (which accepts `[0, 1e15]`) but is then silently dropped by the
`current_oi <= 0` guard: no update is surfaced and the per-symbol cache is
left unchanged. -/
theorem websocket_zero_oi_silently_dropped
    (cache : OICache) (data : WSMessage)
    (he : data.e = "openInterest")
    (hsym : ¬((data.s.map pyToUpper).filter pyIsAlnum = [] ∨
        20 < ((data.s.map pyToUpper).filter pyIsAlnum).length))
    (ho : data.o = some 0)
    (hE : ¬data.E < 0) :
    oiRangeCheckPasses 0 ∧ processMessage cache data = (cache, none) := by
  constructor
  · intro hc
    rcases hc with hc | hc
    · exact absurd hc (by norm_num)
    · exact absurd hc (by norm_num)
  · unfold processMessage
    rw [if_neg (by simp [he])]
    simp only [if_neg hsym, ho]
    rw [if_neg (by norm_num : ¬((0 : ℚ) < 0 ∨ (10 ^ 15 : ℚ) < 0))]
    rw [if_neg hE]
    rw [if_pos (le_refl (0 : ℚ))]

/-- Witness for C10: a zero-OI ETHUSDT message against a nonempty cache. -/
theorem websocket_zero_oi_silently_dropped_witness :
    oiRangeCheckPasses 0 ∧
    processMessage [([66, 84, 67], 5)]
      { e := "openInterest", E := 1700000000000,
        s := [69, 84, 72], o := some 0 } = ([([66, 84, 67], 5)], none) :=
  websocket_zero_oi_silently_dropped [([66, 84, 67], 5)]
    { e := "openInterest", E := 1700000000000, s := [69, 84, 72],
      o := some 0 }
    rfl (by decide) rfl (by decide)

/-- A timestamp TEXT value as SQLite compares it in
`Database.get_latest_oi` (`database/database.py`, lines 232–245).  Stored
rows hold Python `datetime.isoformat()` strings
(`YYYY-MM-DDTHH:MM:SS[.ffffff]`, separator `T`); the query's window bounds
are produced by SQLite `datetime()` (`YYYY-MM-DD HH:MM:SS`, separator
space).  `BETWEEN` on a TEXT column compares these byte-wise: the date part
(equal-length, zero-padded) compares as its numeric day, then the separator
byte (`T` = 0x54 vs space = 0x20, embedded as `sep` 1 vs 0), then the
zero-padded time-of-day.  The fractional-second suffix of stored values can
only matter when day and separator both tie, which never happens between a
stored value and a generated bound. -/
structure TimestampText where
  day : ℕ
  sep : ℕ
  sec : ℕ
deriving DecidableEq, Repr

/-- Byte-wise `<=` of two timestamp TEXT values. -/
def tsTextLe (a b : TimestampText) : Bool :=
  if a.day ≠ b.day then decide (a.day < b.day)
  else if a.sep ≠ b.sep then decide (a.sep < b.sep)
  else decide (a.sec ≤ b.sec)

/-- The `isoformat()` TEXT of a stored row's capture time. -/
def rowIsoText (r : OpenInterestHistory) : TimestampText :=
  { day := r.day, sep := 1, sec := r.sec }

/-- The TEXT produced by SQLite `datetime()` at epoch second `e` (whole
seconds; both clocks are taken as UTC — `datetime.now()` of the writer and
SQLite `'now'` of the query are assumed to agree, which is the case
favourable to the source). -/
def sqliteDatetimeText (e : ℕ) : TimestampText :=
  { day := e / 86400, sep := 0, sec := e % 86400 }

/-- `strftime('%s', ...)` of a stored row: its epoch second. -/
def rowEpoch (r : OpenInterestHistory) : ℕ :=
  r.day * 86400 + r.sec

/-- `ABS(strftime('%s', timestamp) - strftime('%s', target))`. -/
def distTo (target : ℕ) (r : OpenInterestHistory) : ℕ :=
  ((rowEpoch r : ℤ) - (target : ℤ)).natAbs

/-- `ORDER BY ABS(...) LIMIT 1`: the first row of the candidate list
attaining the minimal distance.  (SQLite leaves the order of
equal-distance rows unspecified; the scan order of the candidate list is
taken, which no theorem below depends on.) -/
def selectMinDist (target : ℕ) : List OpenInterestHistory →
    Option OpenInterestHistory
  | [] => none
  | r :: rest =>
    match selectMinDist target rest with
    | none => some r
    | some b => if distTo target r ≤ distTo target b then some r else some b

/-- The `minutes_ago > 0` branch of `Database.get_latest_oi` (lines 232–245):
rows of the symbol/exchange whose stored timestamp TEXT lies `BETWEEN` the
two `datetime()` bounds (`now − minutes_ago ∓ 2` minutes), ordered by
absolute epoch distance to the target, first row only.  `now` is the query
time in epoch seconds. -/
def get_latest_oi_window (rows : List OpenInterestHistory)
    (symbol exchange : String) (now minutes_ago : ℕ) :
    Option OpenInterestHistory :=
  let target := now - minutes_ago * 60
  let lower := sqliteDatetimeText (target - 120)
  let upper := sqliteDatetimeText (target + 120)
  let candidates := rows.filter (fun r =>
    decide (r.symbol = symbol) && decide (r.exchange = exchange) &&
    tsTextLe lower (rowIsoText r) && tsTextLe (rowIsoText r) upper)
  selectMinDist target candidates

/-- The spec's `nearest` tie-break and selection (§4.1/§8): among candidates
within tolerance, minimal absolute distance, earliest capture time on a
tie. -/
def selectNearestSpec (target : ℕ) : List OpenInterestHistory →
    Option OpenInterestHistory
  | [] => none
  | r :: rest =>
    match selectNearestSpec target rest with
    | none => some r
    | some b =>
      if distTo target r < distTo target b ∨
          (distTo target r = distTo target b ∧ rowEpoch r ≤ rowEpoch b) then
        some r
      else some b

/-- The spec's `nearest(symbol, exchange, target_time, tolerance)` (§4.1 of
the spec, stated in its words over the same rows): a snapshot whose capture
time lies within `[target − tolerance, target + tolerance]`, closest in
absolute time distance to the target, ties broken by earliest capture
time; nothing when no snapshot qualifies. -/
def nearestSpec (rows : List OpenInterestHistory) (symbol exchange : String)
    (target tolerance : ℕ) : Option OpenInterestHistory :=
  let candidates := rows.filter (fun r =>
    decide (r.symbol = symbol) && decide (r.exchange = exchange) &&
    decide (target - tolerance ≤ rowEpoch r) &&
    decide (rowEpoch r ≤ target + tolerance))
  selectNearestSpec target candidates

/-- C3: `get_latest_oi` does not implement the spec's `nearest`.  Because
the stored `isoformat()` timestamps use the `T` separator while the
`BETWEEN` bounds generated by `datetime()` use a space, the TEXT comparison
puts every same-day stored timestamp strictly above the upper bound:
(a) a BTCUSDT snapshot captured exactly 15 minutes before a mid-day query
(distance 0, well within the ±2-minute tolerance) is not found, while the
spec's `nearest` returns it; and (b) when the window straddles midnight, an
ETHUSDT snapshot 23 hours away from the target (far outside the tolerance)
is returned, while the spec's `nearest` returns nothing. -/
theorem get_latest_oi_text_format_bug :
    (get_latest_oi_window
        [{ symbol := "BTCUSDT", open_interest := 100, day := 10, sec := 42300,
           exchange := "binance" }] "BTCUSDT" "binance" 907200 15 = none ∧
     nearestSpec
        [{ symbol := "BTCUSDT", open_interest := 100, day := 10, sec := 42300,
           exchange := "binance" }] "BTCUSDT" "binance" 906300 120 =
       some { symbol := "BTCUSDT", open_interest := 100, day := 10,
              sec := 42300, exchange := "binance" }) ∧
    (get_latest_oi_window
        [{ symbol := "ETHUSDT", open_interest := 50, day := 10, sec := 3600,
           exchange := "binance" }] "ETHUSDT" "binance" 951300 15 =
       some { symbol := "ETHUSDT", open_interest := 50, day := 10,
              sec := 3600, exchange := "binance" } ∧
     nearestSpec
        [{ symbol := "ETHUSDT", open_interest := 50, day := 10, sec := 3600,
           exchange := "binance" }] "ETHUSDT" "binance" 950400 120 =
       none) := by
  decide

end Coinalert
